import Mathlib

/-!
Shallow embedding of the rusty-pdp-11 emulator and verification of its
specification claims.

Conventions of the embedding:
* `Word` values are natural numbers kept below 2^16, `Byte` below 2^8,
  `LongWord` below 2^32; arithmetic that can overflow in the Rust source is
  embedded with the wrapping (release-mode) semantics, written as explicit
  `% 2^w` reductions.
* Fallible operations (Rust `assert!` / `panic!`) are embedded as `Option`,
  `none` meaning the assertion fired.
* Mapped memory cells (`SimpleMappedMemoryWord`, a plain interior word) are
  modelled by the word value they currently hold.
-/

/-! ## Numeric primitives (src/utils.rs) -/

/-- `utils::word` / `make_word`: build a 16-bit word from low and high bytes. -/
def make_word (low high : Nat) : Nat := (high <<< 8) ||| low

/-- `utils::long_word`: build a 32-bit value from low and high words. -/
def long_word (low high : Nat) : Nat := (high <<< 16) ||| low

/-- `utils::has_carry`: bit 16..31 of a 32-bit intermediate is set. -/
def has_carry (w : Nat) : Bool := decide (0 < (w &&& 0xFFFF0000))

/-- `utils::word_has_carry`: bit 8..15 of a 16-bit intermediate is set. -/
def word_has_carry (w : Nat) : Bool := decide (0 < (w &&& 0xFF00))

/-- `Word::low` (the `as Byte` truncation). -/
def word_low (w : Nat) : Nat := w &&& 0xFF

/-- `Word::high` (`(w >> 8) as Byte`). -/
def word_high (w : Nat) : Nat := (w >>> 8) &&& 0xFF

/-- `Word::is_negative`: bit 15 set. -/
def word_is_negative (w : Nat) : Bool := decide (0 < (w &&& 0x8000))

/-- `Byte::is_negative`: bit 7 set. -/
def byte_is_negative (b : Nat) : Bool := decide (0 < (b &&& 0x80))

/-- `Byte::register`: sign-extend a byte to its 16-bit register form. -/
def byte_register (b : Nat) : Nat :=
  b ||| (if byte_is_negative b then 0xFF00 else 0x0000)

/-- `Word::one_complement` (`!w` on `u16`). -/
def word_one_complement (w : Nat) : Nat := w ^^^ 0xFFFF

/-- `Word::two_complement`, with wrapping `+ 1`. -/
def word_two_complement (w : Nat) : Nat := (word_one_complement w + 1) % 65536

/-- `Byte::one_complement` (`!b` on `u8`). -/
def byte_one_complement (b : Nat) : Nat := b ^^^ 0xFF

/-- `Byte::two_complement`, with wrapping `+ 1`. -/
def byte_two_complement (b : Nat) : Nat := (byte_one_complement b + 1) % 256

/-- `Number::set_n_bit` on a 16-bit word. -/
def set_n_bit16 (w n : Nat) (value : Bool) : Nat :=
  if value then w ||| (1 <<< n) else w &&& (0xFFFF ^^^ (1 <<< n))

/-- `Number::get_n_bit`. -/
def get_n_bit (w n : Nat) : Bool := decide (0 < ((w >>> n) &&& 1))

/-! ## Memory with mapped cells (src/mem.rs) -/

/-- `mem::MEM_SIZE = 2 << 16` (note: this is `0x20000`, not `0x10000`). -/
def MEM_SIZE : Nat := 2 <<< 16

/-- `Memory::validate_address`: `assert!(address < MEM_SIZE - 1)`,
rendered as the `Bool` the assertion checks. -/
def validate_address (a : Nat) : Bool := decide (a < MEM_SIZE - 1)

/-- `Memory::validate_word_address`: additionally `assert!(address % 2 == 0)`. -/
def validate_word_address (a : Nat) : Bool := validate_address a && decide (a % 2 = 0)

/-- `MappedMemoryWord::read_byte` default method (on the cell's word). -/
def cell_read_byte (w : Nat) (high : Bool) : Nat :=
  if high then word_high w else word_low w

/-- `MappedMemoryWord::write_byte` default method: synthesize the replacement
word from the current word and the incoming byte. -/
def cell_write_byte (w b : Nat) (high : Bool) : Nat :=
  if high then make_word (word_low w) b else make_word b (word_high w)

/-- `mem::Memory`: a byte array plus the mapping table; a mapped cell is
modelled by the word it currently holds (`SimpleMappedMemoryWord`). -/
structure Memory where
  bytes : Nat → Nat
  mapped : Nat → Option Nat

/-- The fresh memory of `Memory::new`. -/
def Memory.empty : Memory := { bytes := fun _ => 0, mapped := fun _ => none }

/-- `Memory::read_byte`. Note the source computes `mapped_address = address
& 0xFFFE` but then looks the map up at `address` itself, and passes
`address != mapped_address` as the `high` flag. -/
def Memory.read_byte (m : Memory) (a : Nat) : Option Nat :=
  if validate_address a then
    some (match m.mapped a with
      | some w => cell_read_byte w (a != (a &&& 0xFFFE))
      | none => m.bytes a)
  else none

/-- `Memory::write_byte`: writes the backing array, then (with the same
lookup-at-`address` as `read_byte`) any mapped cell found at `address`. -/
def Memory.write_byte (m : Memory) (a data : Nat) : Option Memory :=
  if validate_address a then
    let m1 : Memory := { m with bytes := fun x => if x = a then data else m.bytes x }
    some (match m1.mapped a with
      | some w =>
          { m1 with mapped := fun x =>
              if x = a then some (cell_write_byte w data (a != (a &&& 0xFFFE)))
              else m1.mapped x }
      | none => m1)
  else none

/-- `Memory::read_word`: a bound cell wins; otherwise the two backing bytes. -/
def Memory.read_word (m : Memory) (a : Nat) : Option Nat :=
  if validate_word_address a then
    match m.mapped a with
    | some w => some w
    | none => do
        let high ← m.read_byte (a + 1)
        let low ← m.read_byte a
        pure (make_word low high)
  else none

/-- `Memory::write_word`: writes both backing bytes, then any bound cell. -/
def Memory.write_word (m : Memory) (a w : Nat) : Option Memory :=
  if validate_word_address a then do
    let m1 ← m.write_byte a (word_low w)
    let m2 ← m1.write_byte (a + 1) (word_high w)
    pure (match m2.mapped a with
      | some _ => { m2 with mapped := fun x => if x = a then some w else m2.mapped x }
      | none => m2)
  else none

/-- `Memory::map_word`: bind a cell (holding word `w`) at `a`. -/
def Memory.map_word (m : Memory) (a w : Nat) : Option Memory :=
  if validate_word_address a then
    some { m with mapped := fun x => if x = a then some w else m.mapped x }
  else none

/-- `Memory::unmap_word`: read the current word, drop the binding, write the
word back into the backing array. -/
def Memory.unmap_word (m : Memory) (a : Nat) : Option Memory :=
  if validate_word_address a then do
    let v ← m.read_word a
    let m1 : Memory := { m with mapped := fun x => if x = a then none else m.mapped x }
    m1.write_word a v
  else none

/-- Concrete memory for the mapped-cell claims: a cell holding `0x1234` is
bound at address `0`, the backing array is all zero. -/
def memWithCellAt0 : Memory :=
  { bytes := fun _ => 0, mapped := fun a => if a = 0 then some 0x1234 else none }

/-! ## CPU state, registers and flags (src/cpu.rs) -/

/-- `cpu::CPU`: status word (PSW), eight registers (modelled as a function from
register index to word), and the `running` / `waiting` flags of the execution
loop. -/
structure CPU where
  status : Nat
  registers : Nat → Nat
  running : Bool
  waiting : Bool

/-- `CPU::new`: zero status and registers, not running. -/
def CPU.new : CPU :=
  { status := 0, registers := fun _ => 0, running := false, waiting := false }

def STACK_POINTER_INDEX : Nat := 6
def PROGRAM_COUNTER_INDEX : Nat := 7
def MARK_POINTER_INDEX : Nat := 5
def CARRY_FLAG_INDEX : Nat := 0
def OVERFLOW_FLAG_INDEX : Nat := 1
def ZERO_FLAG_INDEX : Nat := 2
def NEGATIVE_FLAG_INDEX : Nat := 3
def FIRST_COMMAND : Nat := 0x200

/-- `CPU::get_word_from_reg`. -/
def CPU.get_word_from_reg (c : CPU) (r : Nat) : Nat := c.registers r

/-- `CPU::get_byte_from_reg`. -/
def CPU.get_byte_from_reg (c : CPU) (r : Nat) : Nat := word_low (c.registers r)

/-- `CPU::set_word_reg`. -/
def CPU.set_word_reg (c : CPU) (r v : Nat) : CPU :=
  { c with registers := fun j => if j = r then v else c.registers j }

/-- `CPU::set_byte_reg`: stores the sign-extended register form of the byte. -/
def CPU.set_byte_reg (c : CPU) (r b : Nat) : CPU :=
  c.set_word_reg r (byte_register b)

/-- `CPU::increment_reg` (`+=` on a `u16`, wrapping). -/
def CPU.increment_reg (c : CPU) (r by_ : Nat) : CPU :=
  c.set_word_reg r ((c.registers r + by_) % 65536)

/-- `CPU::decrement_reg` (`-=` on a `u16`, wrapping; `by_` is at most 2). -/
def CPU.decrement_reg (c : CPU) (r by_ : Nat) : CPU :=
  c.set_word_reg r ((c.registers r + (65536 - by_ % 65536)) % 65536)

/-- `CPU::get_and_increment`: return the old value, then bump the register. -/
def CPU.get_and_increment (c : CPU) (r by_ : Nat) : Nat × CPU :=
  (c.registers r, c.increment_reg r by_)

/-- `CPU::decrement_and_get`. -/
def CPU.decrement_and_get (c : CPU) (r by_ : Nat) : Nat × CPU :=
  let c1 := c.decrement_reg r by_
  (c1.registers r, c1)

/-- `CPU::update_carry_flag`. -/
def CPU.update_carry_flag (c : CPU) (b : Bool) : CPU :=
  { c with status := set_n_bit16 c.status CARRY_FLAG_INDEX b }

/-- `CPU::update_overflow_flag`. -/
def CPU.update_overflow_flag (c : CPU) (b : Bool) : CPU :=
  { c with status := set_n_bit16 c.status OVERFLOW_FLAG_INDEX b }

/-- `CPU::update_zero_flag`. -/
def CPU.update_zero_flag (c : CPU) (b : Bool) : CPU :=
  { c with status := set_n_bit16 c.status ZERO_FLAG_INDEX b }

/-- `CPU::update_negative_flag`. -/
def CPU.update_negative_flag (c : CPU) (b : Bool) : CPU :=
  { c with status := set_n_bit16 c.status NEGATIVE_FLAG_INDEX b }

/-- Modelled from the spec: the flag getters (`carry_flag` etc., used by
interpreter.rs but not present under src/) read the named PSW bit, per the
PSW bit table of the spec (§3). -/
def CPU.carry_flag (c : CPU) : Bool := get_n_bit c.status CARRY_FLAG_INDEX

def CPU.overflow_flag (c : CPU) : Bool := get_n_bit c.status OVERFLOW_FLAG_INDEX

def CPU.zero_flag (c : CPU) : Bool := get_n_bit c.status ZERO_FLAG_INDEX

def CPU.negative_flag (c : CPU) : Bool := get_n_bit c.status NEGATIVE_FLAG_INDEX

/-- Modelled from the spec: `status_word` (used by `perform_trap` but not
present under src/) returns the current PSW. -/
def CPU.status_word (c : CPU) : Nat := c.status

/-- Modelled from the spec: `set_status_word` loads a new PSW. -/
def CPU.set_status_word (c : CPU) (w : Nat) : CPU := { c with status := w }

/-- `CPU::update_status_flags_bitwise` (word result): clear V, compute Z and N
from the result, leave C unchanged. -/
def CPU.update_status_flags_bitwise16 (c : CPU) (result : Nat) : CPU :=
  ((c.update_overflow_flag false).update_zero_flag (result == 0)).update_negative_flag
    (word_is_negative result)

/-- `CPU::update_status_flags_bitwise` at byte width. -/
def CPU.update_status_flags_bitwise8 (c : CPU) (result : Nat) : CPU :=
  ((c.update_overflow_flag false).update_zero_flag (result == 0)).update_negative_flag
    (byte_is_negative result)

/-- Modelled from the spec: the three-argument `update_status_flags` used by
interpreter.rs is not under src/ (src/ only has a two-argument variant); per
the spec's flag discipline (§4.3) it sets C and V from its arguments and Z and
N from the result. Word-width result. -/
def CPU.update_status_flags16 (c : CPU) (result : Nat) (carry overflow : Bool) : CPU :=
  (((c.update_carry_flag carry).update_overflow_flag overflow).update_zero_flag
      (result == 0)).update_negative_flag (word_is_negative result)

/-- Modelled from the spec: `update_status_flags` at byte width. -/
def CPU.update_status_flags8 (c : CPU) (result : Nat) (carry overflow : Bool) : CPU :=
  (((c.update_carry_flag carry).update_overflow_flag overflow).update_zero_flag
      (result == 0)).update_negative_flag (byte_is_negative result)

/-- Modelled from the spec: `has_signed_overflow` (used by interpreter.rs, not
under src/) is the spec's signed-overflow rule `sign(dst) != sign(result)`
(§4.3), at word width. -/
def has_signed_overflow16 (dst result : Nat) : Bool :=
  word_is_negative dst != word_is_negative result

/-- Modelled from the spec: `has_signed_overflow` at byte width. -/
def has_signed_overflow8 (dst result : Nat) : Bool :=
  byte_is_negative dst != byte_is_negative result

/-- Modelled from the spec: `assert_even_reg` (used by DIV/ASHC, not under
src/) asserts the register index is even ("Rn must be even", §4.3). -/
def assert_even_reg (r : Nat) : Bool := decide (r % 2 = 0)

/-- Modelled from the spec: `push_stack` (§4.4): SP decreases by 2, the value
is stored at the new SP. Fails if the resulting address fails validation. -/
def CPU.push_stack (c : CPU) (m : Memory) (v : Nat) : Option (CPU × Memory) :=
  let c1 := c.decrement_reg STACK_POINTER_INDEX 2
  (m.write_word (c1.registers STACK_POINTER_INDEX) v).map (fun m2 => (c1, m2))

/-- Modelled from the spec: `pop_stack` (§4.4): the value at SP is read, SP
increases by 2. -/
def CPU.pop_stack (c : CPU) (m : Memory) : Option (Nat × CPU) :=
  (m.read_word (c.registers STACK_POINTER_INDEX)).map
    (fun v => (v, c.increment_reg STACK_POINTER_INDEX 2))

/-! ## Addressing-mode evaluation (src/cpu/addressing.rs) -/

/-- `addressing::AddressingMode` (source spelling kept). -/
inductive AddressingMode where
  | Register
  | RegisterDeferred
  | Autoicrement
  | AutoicrementDeferred
  | Autodecrement
  | AutodecrementDeferred
  | Index
  | IndexDeferred
  | Immediate
  | Absolute
  | Relative
  | RelativeDeferred
deriving DecidableEq

/-- `impl From<Byte> for AddressingMode`; the catch-all arm panics, hence
`none`. The discriminant values are those of the `#[repr(u8)]` enum. -/
def addressing_mode_from_byte (b : Nat) : Option AddressingMode :=
  match b with
  | 0x00 => some .Register
  | 0x01 => some .RegisterDeferred
  | 0x02 => some .Autoicrement
  | 0x03 => some .AutoicrementDeferred
  | 0x04 => some .Autodecrement
  | 0x05 => some .AutodecrementDeferred
  | 0x06 => some .Index
  | 0x07 => some .IndexDeferred
  | 0x17 => some .Immediate
  | 0x1F => some .Absolute
  | 0x37 => some .Relative
  | 0x3F => some .RelativeDeferred
  | _ => none

/-- `addressing::register_from_operand`. -/
def register_from_operand (operand : Nat) : Nat := operand &&& 0x07

/-- `addressing::adressing_from_operand` (source spelling kept): when the
register field selects the PC, the mode byte is re-encoded as
`mode << 3 | 0x07` before conversion. -/
def adressing_from_operand (operand : Nat) : Option AddressingMode :=
  let mode := (operand >>> 3) &&& 0x07
  if register_from_operand operand = PROGRAM_COUNTER_INDEX then
    addressing_mode_from_byte ((mode <<< 3) ||| 0x07)
  else
    addressing_mode_from_byte mode

/-- `CPU::get_register_deferred_address`. -/
def CPU.get_register_deferred_address (c : CPU) (_m : Memory) (r _incBy : Nat) :
    Option (Nat × CPU) :=
  some (c.get_word_from_reg r, c)

/-- `CPU::get_autoincrement_address`. -/
def CPU.get_autoincrement_address (c : CPU) (_m : Memory) (r incBy : Nat) :
    Option (Nat × CPU) :=
  some (c.get_and_increment r incBy)

/-- `CPU::get_autoincrement_deferred_address`. -/
def CPU.get_autoincrement_deferred_address (c : CPU) (m : Memory) (r _incBy : Nat) :
    Option (Nat × CPU) :=
  let p := c.get_and_increment r 2
  (m.read_word p.1).map (fun a => (a, p.2))

/-- `CPU::get_autodecrement_address`. -/
def CPU.get_autodecrement_address (c : CPU) (_m : Memory) (r incBy : Nat) :
    Option (Nat × CPU) :=
  some (c.decrement_and_get r incBy)

/-- `CPU::get_autodecrement_deferred_address`. -/
def CPU.get_autodecrement_deferred_address (c : CPU) (m : Memory) (r _incBy : Nat) :
    Option (Nat × CPU) :=
  let p := c.decrement_and_get r 2
  (m.read_word p.1).map (fun a => (a, p.2))

/-- `CPU::get_index_address`: fetch the index word at PC (advancing it), add
the register (wrapping 16-bit addition). -/
def CPU.get_index_address (c : CPU) (m : Memory) (r _incBy : Nat) :
    Option (Nat × CPU) :=
  let p := c.get_and_increment PROGRAM_COUNTER_INDEX 2
  (m.read_word p.1).map (fun n => ((n + p.2.get_word_from_reg r) % 65536, p.2))

/-- `CPU::get_index_deferred_address`. -/
def CPU.get_index_deferred_address (c : CPU) (m : Memory) (r incBy : Nat) :
    Option (Nat × CPU) := do
  let p ← c.get_index_address m r incBy
  (m.read_word p.1).map (fun a => (a, p.2))

/-- `CPU::get_immediate_address`. -/
def CPU.get_immediate_address (c : CPU) (_m : Memory) (r _incBy : Nat) :
    Option (Nat × CPU) :=
  some (c.get_and_increment r 2)

/-- The effective-address dispatch shared by the get/put paths (the mode arms
of `get_operand_value_with_addressing` / `put_operand_value_with_addressing`
other than `Register`). -/
def CPU.get_address (c : CPU) (m : Memory) (mode : AddressingMode) (r incBy : Nat) :
    Option (Nat × CPU) :=
  match mode with
  | .Register => none
  | .RegisterDeferred => c.get_register_deferred_address m r incBy
  | .Autoicrement => c.get_autoincrement_address m r incBy
  | .AutoicrementDeferred => c.get_autoincrement_deferred_address m r incBy
  | .Autodecrement => c.get_autodecrement_address m r incBy
  | .AutodecrementDeferred => c.get_autodecrement_deferred_address m r incBy
  | .Index => c.get_index_address m r incBy
  | .IndexDeferred => c.get_index_deferred_address m r incBy
  | .Immediate => c.get_immediate_address m r incBy
  | .Absolute => c.get_autoincrement_deferred_address m r incBy
  | .Relative => c.get_index_address m r incBy
  | .RelativeDeferred => c.get_index_deferred_address m r incBy

/-- `CPU::get_word` (via `get_operand_value_with_addressing` with
`Memory::read_word` / `get_word_from_reg`; word width = 2). -/
def CPU.get_word (c : CPU) (m : Memory) (r : Nat) (mode : AddressingMode) :
    Option (Nat × CPU) :=
  match mode with
  | .Register => some (c.get_word_from_reg r, c)
  | _ => do
      let p ← c.get_address m mode r 2
      (m.read_word p.1).map (fun v => (v, p.2))

/-- `CPU::get_byte` (byte width = 1). -/
def CPU.get_byte (c : CPU) (m : Memory) (r : Nat) (mode : AddressingMode) :
    Option (Nat × CPU) :=
  match mode with
  | .Register => some (c.get_byte_from_reg r, c)
  | _ => do
      let p ← c.get_address m mode r 1
      (m.read_byte p.1).map (fun v => (v, p.2))

/-- `CPU::get_word_by_operand`. -/
def CPU.get_word_by_operand (c : CPU) (m : Memory) (operand : Nat) :
    Option (Nat × CPU) := do
  let mode ← adressing_from_operand operand
  c.get_word m (register_from_operand operand) mode

/-- `CPU::get_byte_by_operand`. -/
def CPU.get_byte_by_operand (c : CPU) (m : Memory) (operand : Nat) :
    Option (Nat × CPU) := do
  let mode ← adressing_from_operand operand
  c.get_byte m (register_from_operand operand) mode

/-- `CPU::put_word` (via `put_operand_value_with_addressing` with
`Memory::write_word` / `set_word_reg`). -/
def CPU.put_word (c : CPU) (m : Memory) (r : Nat) (mode : AddressingMode) (w : Nat) :
    Option (CPU × Memory) :=
  match mode with
  | .Register => some (c.set_word_reg r w, m)
  | _ => do
      let p ← c.get_address m mode r 2
      (m.write_word p.1 w).map (fun m2 => (p.2, m2))

/-- `CPU::put_byte` (with `Memory::write_byte` / `set_byte_reg`). -/
def CPU.put_byte (c : CPU) (m : Memory) (r : Nat) (mode : AddressingMode) (b : Nat) :
    Option (CPU × Memory) :=
  match mode with
  | .Register => some (c.set_byte_reg r b, m)
  | _ => do
      let p ← c.get_address m mode r 1
      (m.write_byte p.1 b).map (fun m2 => (p.2, m2))

/-- `CPU::put_word_by_operand`. -/
def CPU.put_word_by_operand (c : CPU) (m : Memory) (operand w : Nat) :
    Option (CPU × Memory) := do
  let mode ← adressing_from_operand operand
  c.put_word m (register_from_operand operand) mode w

/-- `CPU::put_byte_by_operand`. -/
def CPU.put_byte_by_operand (c : CPU) (m : Memory) (operand b : Nat) :
    Option (CPU × Memory) := do
  let mode ← adressing_from_operand operand
  c.put_byte m (register_from_operand operand) mode b

/-! ## Operand fields and branch offsets (src/cpu/commands.rs) -/

/-- `commands::dst_operand`. -/
def dst_operand (command : Nat) : Nat := command &&& 0x3F

/-- `commands::src_operand`. -/
def src_operand (command : Nat) : Nat := (command >>> 6) &&& 0x3F

/-- `commands::reg_operand`. -/
def reg_operand (command : Nat) : Nat := (command >>> 6) &&& 0x07

/-- `commands::low_reg_operand`. -/
def low_reg_operand (command : Nat) : Nat := command &&& 0x07

/-- `commands::adr_operand`. -/
def adr_operand (command : Nat) : Nat := dst_operand command

/-- `commands::branch_offset`: sign-extend the low byte to a word, double it
(wrapping 16-bit shift). -/
def branch_offset (command : Nat) : Nat :=
  (byte_register (word_low command) <<< 1) % 65536

/-! ## Instruction semantics (src/cpu/interpreter.rs)

Each `do_*` takes the CPU, the memory and the full instruction word and
returns the successor state, `none` when an assertion or panic fires. -/

/-- `CPU::do_nop`. -/
def CPU.do_nop (c : CPU) (m : Memory) (_command : Nat) : Option (CPU × Memory) :=
  some (c, m)

/-- `CPU::do_halt`: clear the running flag. -/
def CPU.do_halt (c : CPU) (m : Memory) (_command : Nat) : Option (CPU × Memory) :=
  some ({ c with running := false }, m)

/-- `CPU::do_wait`: set the waiting flag. -/
def CPU.do_wait (c : CPU) (m : Memory) (_command : Nat) : Option (CPU × Memory) :=
  some ({ c with waiting := true }, m)

/-- `CPU::do_mov`. -/
def CPU.do_mov (c : CPU) (m : Memory) (command : Nat) : Option (CPU × Memory) := do
  let s ← c.get_word_by_operand m (src_operand command)
  let t ← s.2.put_word_by_operand m (dst_operand command) s.1
  pure (t.1.update_status_flags_bitwise16 s.1, t.2)

/-- `CPU::do_movb`. -/
def CPU.do_movb (c : CPU) (m : Memory) (command : Nat) : Option (CPU × Memory) := do
  let s ← c.get_byte_by_operand m (src_operand command)
  let t ← s.2.put_byte_by_operand m (dst_operand command) s.1
  pure (t.1.update_status_flags_bitwise8 s.1, t.2)

/-- `CPU::do_add`: 32-bit intermediate sum, result truncated to 16 bits, C
from bit 16, V from the spec-modelled signed-overflow rule. -/
def CPU.do_add (c : CPU) (m : Memory) (command : Nat) : Option (CPU × Memory) := do
  let d ← c.get_word_by_operand m (dst_operand command)
  let s ← d.2.get_word_by_operand m (src_operand command)
  let sum := d.1 + s.1
  let result := sum % 65536
  let t ← s.2.put_word_by_operand m (dst_operand command) result
  pure (t.1.update_status_flags16 result (has_carry sum) (has_signed_overflow16 d.1 result), t.2)

/-- `CPU::do_sub`: `dst - src` on 32-bit values (wrapping, release-mode
semantics), C is the negation of `has_carry` of that intermediate, V from the
spec-modelled signed-overflow rule. -/
def CPU.do_sub (c : CPU) (m : Memory) (command : Nat) : Option (CPU × Memory) := do
  let d ← c.get_word_by_operand m (dst_operand command)
  let s ← d.2.get_word_by_operand m (src_operand command)
  let sub := (d.1 + (4294967296 - s.1 % 4294967296)) % 4294967296
  let result := sub % 65536
  let t ← s.2.put_word_by_operand m (dst_operand command) result
  pure (t.1.update_status_flags16 result (!has_carry sub) (has_signed_overflow16 d.1 result), t.2)

/-- `CPU::do_neg`: store the two's complement, C set when the result is
nonzero, V the negation of the spec-modelled signed-overflow rule. -/
def CPU.do_neg (c : CPU) (m : Memory) (command : Nat) : Option (CPU × Memory) := do
  let s ← c.get_word_by_operand m (adr_operand command)
  let result := word_two_complement s.1
  let t ← s.2.put_word_by_operand m (adr_operand command) result
  pure (t.1.update_status_flags16 result (!(result == 0)) (!has_signed_overflow16 s.1 result), t.2)

/-- `CPU::do_negb`. -/
def CPU.do_negb (c : CPU) (m : Memory) (command : Nat) : Option (CPU × Memory) := do
  let s ← c.get_byte_by_operand m (adr_operand command)
  let result := byte_two_complement s.1
  let t ← s.2.put_byte_by_operand m (adr_operand command) result
  pure (t.1.update_status_flags8 result (!(result == 0)) (!has_signed_overflow8 s.1 result), t.2)

/-- `CPU::do_div`: unsigned 32-by-16 division of `(Rn+1 : Rn)`; on a zero
divisor, set C and V and leave everything else alone. The destination register
must be even (`assert_even_reg`). -/
def CPU.do_div (c : CPU) (m : Memory) (command : Nat) : Option (CPU × Memory) := do
  let dst := reg_operand command
  if assert_even_reg dst then
    let dst_hi := dst ||| 0x01
    let dst_lo_value := c.get_word_from_reg dst
    let dst_hi_value := c.get_word_from_reg dst_hi
    let dst_value := long_word dst_lo_value dst_hi_value
    let s ← c.get_word_by_operand m (adr_operand command)
    if s.1 == 0 then
      pure ((s.2.update_carry_flag true).update_overflow_flag true, m)
    else
      let quotient := dst_value / s.1
      let reminder := dst_value % s.1
      let c2 := (s.2.set_word_reg dst_hi (reminder &&& 0xFFFF)).set_word_reg dst
        (quotient &&& 0xFFFF)
      pure (c2.update_status_flags16 (quotient &&& 0xFFFF) (has_carry quotient) false, m)
  else none

/-- `CPU::do_br`: unconditional branch, wrapping 16-bit PC addition. -/
def CPU.do_br (c : CPU) (m : Memory) (command : Nat) : Option (CPU × Memory) :=
  some (c.set_word_reg PROGRAM_COUNTER_INDEX
    ((c.get_word_from_reg PROGRAM_COUNTER_INDEX + branch_offset command) % 65536), m)

/-- `CPU::do_bcc`: branch when the carry flag is clear. -/
def CPU.do_bcc (c : CPU) (m : Memory) (command : Nat) : Option (CPU × Memory) :=
  if !c.carry_flag then c.do_br m command else some (c, m)

/-- `CPU::do_bcs`: the source also branches when the carry flag is CLEAR
(`if !self.carry_flag()`), identical to `do_bcc`. -/
def CPU.do_bcs (c : CPU) (m : Memory) (command : Nat) : Option (CPU × Memory) :=
  if !c.carry_flag then c.do_br m command else some (c, m)

/-- `CPU::perform_trap`: push PSW then PC, then load the new PC from
`M[vector]` and the new PSW from `M[vector + 2]`. -/
def CPU.perform_trap (c : CPU) (m : Memory) (trap_address : Nat) :
    Option (CPU × Memory) := do
  let pc_value := c.get_word_from_reg PROGRAM_COUNTER_INDEX
  let psw_value := c.status_word
  let p1 ← c.push_stack m psw_value
  let p2 ← p1.1.push_stack p1.2 pc_value
  let new_pc ← p2.2.read_word trap_address
  let new_psw ← p2.2.read_word (trap_address + 2)
  pure ((p2.1.set_word_reg PROGRAM_COUNTER_INDEX new_pc).set_status_word new_psw, p2.2)

/-- `CPU::do_trap`: traps through address `0x0018`. -/
def CPU.do_trap (c : CPU) (m : Memory) (_command : Nat) : Option (CPU × Memory) :=
  c.perform_trap m 0x0018

/-- `CPU::do_emt`: traps through address `0x001C`. -/
def CPU.do_emt (c : CPU) (m : Memory) (_command : Nat) : Option (CPU × Memory) :=
  c.perform_trap m 0x001C

/-! ## Instruction decoding (src/cpu/commands.rs tables) -/

/-- The instruction names of the dispatch tables. -/
inductive Instr where
  | HALT | WAIT | RESET | NOP | RTI | BPT | IOT | RTT
  | SPL | RTS | FADD | FSUB | FMUL | FDIV
  | SE | CL
  | JMP | CLR | CLRB | INC | INCB | DEC | DECB | ADC | ADCB | SBC | SBCB
  | TST | TSTB | NEG | NEGB | COM | COMB | ROR | RORB | ROL | ROLB
  | ASR | ASRB | ASL | ASLB | SWAB | SXT | MARK
  | MUL | DIV | ASH | ASHC | XOR | SOB | JSR
  | MOV | MOVB | CMP | CMPB | BIT | BITB | BIC | BICB | BIS | BISB | ADD | SUB
  | BR | BNE | BEQ | BGE | BLT | BGT | BLE | BPL | BMI | BHI | BLOS
  | BVC | BVS | BCC | BCS | TRAP | EMT
  | UNKNOWN
deriving DecidableEq

/-- The zero-operand table (`o_0_commands`, mask `0xFFFF`). -/
def o_0_lookup (w : Nat) : Option Instr :=
  match w &&& 0xFFFF with
  | 0x0000 => some .HALT
  | 0x0001 => some .WAIT
  | 0x0005 => some .RESET
  | 0x00A0 => some .NOP
  | 0x0002 => some .RTI
  | 0x0003 => some .BPT
  | 0x0004 => some .IOT
  | 0x0006 => some .RTT
  | _ => none

/-- The priority/RTS/float table (`p_commands`, mask `0xFFF8`). -/
def p_lookup (w : Nat) : Option Instr :=
  match w &&& 0xFFF8 with
  | 0x0098 => some .SPL
  | 0x0080 => some .RTS
  | 0x7A00 => some .FADD
  | 0x7A08 => some .FSUB
  | 0x7A10 => some .FMUL
  | 0x7A18 => some .FDIV
  | _ => none

/-- The condition-code table (`c_commands`, mask `0xFFF0`). -/
def c_lookup (w : Nat) : Option Instr :=
  match w &&& 0xFFF0 with
  | 0x00B0 => some .SE
  | 0x00A0 => some .CL
  | _ => none

/-- The one-operand table (`o_1_commands`, mask `0xFFC0`). -/
def o_1_lookup (w : Nat) : Option Instr :=
  match w &&& 0xFFC0 with
  | 0x0040 => some .JMP
  | 0x0A00 => some .CLR
  | 0x8A00 => some .CLRB
  | 0x0A80 => some .INC
  | 0x8A80 => some .INCB
  | 0x0AC0 => some .DEC
  | 0x8AC0 => some .DECB
  | 0x0B40 => some .ADC
  | 0x8B40 => some .ADCB
  | 0x0B80 => some .SBC
  | 0x8B80 => some .SBCB
  | 0x0BC0 => some .TST
  | 0x8BC0 => some .TSTB
  | 0x0B00 => some .NEG
  | 0x8B00 => some .NEGB
  | 0x0A40 => some .COM
  | 0x8A40 => some .COMB
  | 0x0C00 => some .ROR
  | 0x8C00 => some .RORB
  | 0x0C40 => some .ROL
  | 0x8C40 => some .ROLB
  | 0x0C80 => some .ASR
  | 0x8C80 => some .ASRB
  | 0x0CC0 => some .ASL
  | 0x8CC0 => some .ASLB
  | 0x00C0 => some .SWAB
  | 0x0DC0 => some .SXT
  | 0x0D00 => some .MARK
  | _ => none

/-- The one-and-a-half-operand table (`o_1_5_commands`, mask `0xFE00`). -/
def o_1_5_lookup (w : Nat) : Option Instr :=
  match w &&& 0xFE00 with
  | 0x7000 => some .MUL
  | 0x7200 => some .DIV
  | 0x7400 => some .ASH
  | 0x7600 => some .ASHC
  | 0x7800 => some .XOR
  | 0x7E00 => some .SOB
  | 0x0800 => some .JSR
  | _ => none

/-- The two-operand table (`o_2_commands`, mask `0xF000`). -/
def o_2_lookup (w : Nat) : Option Instr :=
  match w &&& 0xF000 with
  | 0x1000 => some .MOV
  | 0x9000 => some .MOVB
  | 0x2000 => some .CMP
  | 0xA000 => some .CMPB
  | 0x3000 => some .BIT
  | 0xB000 => some .BITB
  | 0x4000 => some .BIC
  | 0xC000 => some .BICB
  | 0x5000 => some .BIS
  | 0xD000 => some .BISB
  | 0x6000 => some .ADD
  | 0xE000 => some .SUB
  | _ => none

/-- The branch table (`b_commands`, mask `0xFF00`). -/
def b_lookup (w : Nat) : Option Instr :=
  match w &&& 0xFF00 with
  | 0x0100 => some .BR
  | 0x0200 => some .BNE
  | 0x0300 => some .BEQ
  | 0x0400 => some .BGE
  | 0x0500 => some .BLT
  | 0x0600 => some .BGT
  | 0x0700 => some .BLE
  | 0x8000 => some .BPL
  | 0x8100 => some .BMI
  | 0x8200 => some .BHI
  | 0x8300 => some .BLOS
  | 0x8400 => some .BVC
  | 0x8500 => some .BVS
  | 0x8600 => some .BCC
  | 0x8700 => some .BCS
  | 0x8900 => some .TRAP
  | 0x8800 => some .EMT
  | _ => none

/-- `CPU::command` (src/cpu/commands.rs): try the tables in the mask-priority
order, fall back to the unknown command. -/
def command_of (w : Nat) : Instr :=
  ((o_0_lookup w).orElse (fun _ =>
    (p_lookup w).orElse (fun _ =>
      (c_lookup w).orElse (fun _ =>
        (o_1_lookup w).orElse (fun _ =>
          (o_1_5_lookup w).orElse (fun _ =>
            (o_2_lookup w).orElse (fun _ =>
              b_lookup w))))))).getD .UNKNOWN

/-- Dispatch to the embedded instruction interpreters. Instructions whose
semantics this development does not need are mapped to `none`; no verified
execution reaches them. `UNKNOWN` is the source's fatal panic. -/
def exec (i : Instr) (c : CPU) (m : Memory) (w : Nat) : Option (CPU × Memory) :=
  match i with
  | .HALT => c.do_halt m w
  | .WAIT => c.do_wait m w
  | .RESET => c.do_nop m w
  | .NOP => c.do_nop m w
  | .MOV => c.do_mov m w
  | .MOVB => c.do_movb m w
  | .ADD => c.do_add m w
  | .SUB => c.do_sub m w
  | .NEG => c.do_neg m w
  | .NEGB => c.do_negb m w
  | .DIV => c.do_div m w
  | .BR => c.do_br m w
  | .BCC => c.do_bcc m w
  | .BCS => c.do_bcs m w
  | .TRAP => c.do_trap m w
  | .EMT => c.do_emt m w
  | _ => none

/-- One iteration of the `CPU::run` loop body: `next_command` (read the word
at PC, advancing PC by 2), decode, execute. -/
def step (c : CPU) (m : Memory) : Option (CPU × Memory) := do
  let p := c.get_and_increment PROGRAM_COUNTER_INDEX 2
  let w ← m.read_word p.1
  exec (command_of w) p.2 m w

/-- The `while self.running` loop, fuel-bounded; `none` when the fuel runs out
with the CPU still running. -/
def runFuel : Nat → CPU → Memory → Option (CPU × Memory)
  | 0, c, m => if c.running then none else some (c, m)
  | fuel + 1, c, m =>
      if c.running then do
        let p ← step c m
        runFuel fuel p.1 p.2
      else some (c, m)

/-- `CPU::run`: set running, point PC at `FIRST_COMMAND`, loop. -/
def CPU.run (c : CPU) (m : Memory) (fuel : Nat) : Option (CPU × Memory) :=
  runFuel fuel ({ c with running := true }.set_word_reg PROGRAM_COUNTER_INDEX FIRST_COMMAND) m

/-- Load a list of words into consecutive word addresses, as the test fixtures
do with chained `write_word` calls. -/
def loadWords : Memory → Nat → List Nat → Option Memory
  | m, _, [] => some m
  | m, a, w :: ws => do
      let m1 ← m.write_word a w
      loadWords m1 (a + 2) ws

/-! ## Interrupt bus (src/cpu/interruptions.rs)

`BlockingQueue` is an mpsc channel: `push` sends (appends), `pop` is a
nonblocking `try_recv` (takes the oldest element). It is modelled as a list
with `push` appending at the tail and `pop` taking the head. -/

/-- `interruptions::InterruptionBus`: four FIFO queues of vector addresses. -/
structure InterruptionBus where
  br4 : List Nat
  br5 : List Nat
  br6 : List Nat
  br7 : List Nat

/-- The queue of a bus-request level (levels outside 4..7 have no queue). -/
def levelQueue (bus : InterruptionBus) (l : Nat) : List Nat :=
  match l with
  | 4 => bus.br4
  | 5 => bus.br5
  | 6 => bus.br6
  | 7 => bus.br7
  | _ => []

/-- `InterruptionBus::interrupt`: asserts `priority <= 7 && priority > 3`,
then appends the vector to that level's queue. -/
def InterruptionBus.interrupt (bus : InterruptionBus) (vector_address priority : Nat) :
    Option InterruptionBus :=
  if priority ≤ 0x07 then
    if 0x03 < priority then
      match priority with
      | 4 => some { bus with br4 := bus.br4 ++ [vector_address] }
      | 5 => some { bus with br5 := bus.br5 ++ [vector_address] }
      | 6 => some { bus with br6 := bus.br6 ++ [vector_address] }
      | 7 => some { bus with br7 := bus.br7 ++ [vector_address] }
      | _ => none
    else none
  else none

/-- `InterruptionBus::next_interruption_if_any`: asserts `priority <= 7`;
walks the levels from 7 down, stopping at the current priority, popping the
first non-empty queue found. -/
def InterruptionBus.next_interruption_if_any (bus : InterruptionBus) (priority : Nat) :
    Option (Option Nat × InterruptionBus) :=
  if priority ≤ 0x07 then
    some (
      if priority = 0x07 then (none, bus) else
      match bus.br7 with
      | v :: rest => (some v, { bus with br7 := rest })
      | [] =>
        if priority = 0x06 then (none, bus) else
        match bus.br6 with
        | v :: rest => (some v, { bus with br6 := rest })
        | [] =>
          if priority = 0x05 then (none, bus) else
          match bus.br5 with
          | v :: rest => (some v, { bus with br5 := rest })
          | [] =>
            if priority = 0x04 then (none, bus) else
            match bus.br4 with
            | v :: rest => (some v, { bus with br4 := rest })
            | [] => (none, bus))
  else none

/-! ## DL11 console receiver (src/tty.rs) -/

def RDY_STATUS_BIT : Nat := 0x07
def INT_STATUS_BIT : Nat := 0x06
def INT_PRIORITY : Nat := 0x04
def RECEIVER_INT : Nat := 0x0030

/-- `tty::TtyMappedMemoryWord`: a word cell plus the "new data" flag. -/
structure TtyCell where
  has_new_data : Bool
  word : Nat

/-- `TtyMappedMemoryWord::read_word`: clears the new-data flag. -/
def TtyCell.read_word (cell : TtyCell) : Nat × TtyCell :=
  (cell.word, { cell with has_new_data := false })

/-- `TtyMappedMemoryWord::write_word`: sets the new-data flag. -/
def TtyCell.write_word (_cell : TtyCell) (w : Nat) : TtyCell :=
  { has_new_data := true, word := w }

/-- `MappedMemoryWord::write_byte` on a tty cell: read the current word
(clearing the flag), synthesize the replacement, write it (setting the flag). -/
def TtyCell.write_byte (cell : TtyCell) (b : Nat) (high : Bool) : TtyCell :=
  let p := cell.read_word
  p.2.write_word (cell_write_byte p.1 b high)

/-- The receiver half of `tty::Dl11Tty`: RCSR and RBUF cells plus the
keyboard ingest queue. -/
structure Dl11Receiver where
  receiver_status : TtyCell
  receiver_buffer : TtyCell
  receiver_queue : List Nat

/-- `Dl11Tty::has_received_data`: the RBUF new-data flag (read directly, not
through `read_word`, so nothing is cleared). -/
def Dl11Receiver.has_received_data (t : Dl11Receiver) : Bool :=
  t.receiver_buffer.has_new_data

/-- `Dl11Tty::set_recived` (source spelling kept): read RCSR (clearing its
new-data flag), update the RDY bit, write it back. -/
def Dl11Receiver.set_recived (t : Dl11Receiver) (received : Bool) : Dl11Receiver :=
  let p := t.receiver_status.read_word
  { t with receiver_status := p.2.write_word (set_n_bit16 p.1 RDY_STATUS_BIT received) }

/-- `Dl11Tty::should_notify_received`: RCSR interrupt-enable set and RDY
clear (the `read_word` clears the RCSR new-data flag). -/
def Dl11Receiver.should_notify_received (t : Dl11Receiver) : Bool × Dl11Receiver :=
  let p := t.receiver_status.read_word
  (get_n_bit p.1 INT_STATUS_BIT && !get_n_bit p.1 RDY_STATUS_BIT,
   { t with receiver_status := p.2 })

/-- `Dl11Tty::try_receive`, returning the new receiver state and the list of
`(vector, priority)` interrupts raised on this tick. When a byte is pending in
RBUF, keep RDY set and possibly notify; otherwise clear RDY and drain one byte
from the keyboard queue into the low byte of RBUF. -/
def Dl11Receiver.try_receive (t : Dl11Receiver) : Dl11Receiver × List (Nat × Nat) :=
  if t.has_received_data then
    let p := t.should_notify_received
    let t2 := p.2.set_recived true
    if p.1 then (t2, [(RECEIVER_INT, INT_PRIORITY)]) else (t2, [])
  else
    let t1 := t.set_recived false
    match t1.receiver_queue with
    | b :: rest =>
        ({ t1 with
            receiver_queue := rest,
            receiver_buffer := t1.receiver_buffer.write_byte b false }, [])
    | [] => (t1, [])

/-! ## Concrete machine states used as witnesses and counterexamples -/

/-- A vector table holding distinct words at `0x0018` (EMT vector) and
`0x001C` (TRAP vector). -/
def memTrapTest : Option Memory :=
  loadWords Memory.empty 0x0018 [0x1111, 0x0040, 0x2222, 0x0080]

/-- A CPU about to trap: PSW `0x000F`, PC `0x0300`, SP `0x0200`. -/
def cpuTrapTest : CPU :=
  { status := 0x000F,
    registers := fun j => if j = 7 then 0x0300 else if j = 6 then 0x0200 else 0,
    running := true, waiting := false }

/-- A CPU with the carry flag set and PC `0x0400`. -/
def cpuCarrySet : CPU :=
  { status := 0x0001, registers := fun j => if j = 7 then 0x0400 else 0,
    running := true, waiting := false }

/-- A CPU with the carry flag clear and PC `0x0400`. -/
def cpuCarryClear : CPU :=
  { status := 0x0000, registers := fun j => if j = 7 then 0x0400 else 0,
    running := true, waiting := false }

/-- The spec's SUB-underflow scenario:
`MOV #1, R0; MOV #2, R1; SUB R1, R0; HALT`. -/
def subProgram : List Nat := [0x15C0, 0x0001, 0x15C1, 0x0002, 0xE040, 0x0000]

/-- A CPU with `R0 = 5`, `R1 = 7`, `R2 = 0`, about to divide by `R2`. -/
def cpuDivTest : CPU :=
  { status := 0,
    registers := fun j => if j = 0 then 5 else if j = 1 then 7 else 0,
    running := true, waiting := false }

/-- A CPU holding `3` in `R1`, for the NEG witness. -/
def cpuNegTest : CPU :=
  { status := 0, registers := fun j => if j = 1 then 3 else 0,
    running := true, waiting := false }

/-- A console receiver with no pending byte in RBUF, one byte (`0x41`) queued
from the keyboard, RCSR with RIE and RDY both set. -/
def ttyDrainTest : Dl11Receiver :=
  { receiver_status := { has_new_data := false, word := 0x00C0 },
    receiver_buffer := { has_new_data := false, word := 0 },
    receiver_queue := [0x41] }

/-! ## Theorems -/

/-- `get_n_bit` is `Nat.testBit`. -/
theorem get_n_bit_eq_testBit (w n : Nat) : get_n_bit w n = w.testBit n := by
  rw [get_n_bit, Nat.testBit_to_div_mod, Nat.shiftRight_eq_div_pow,
    Nat.and_one_is_mod, decide_eq_decide]
  omega

/-- All of the low 16 bits of the mask `0xFFFF` are set. -/
theorem testBit_ffff {n : Nat} (h : n < 16) : Nat.testBit 0xFFFF n = true := by
  have he : (0xFFFF : Nat) = 2 ^ 16 - 1 := by norm_num
  rw [he, Nat.testBit_two_pow_sub_one]
  simp [h]

/-- Reading a bit after `set_n_bit16` (for bit positions below 16). -/
theorem get_set_bit16 (w m n : Nat) (b : Bool) (hn : n < 16) :
    get_n_bit (set_n_bit16 w m b) n = if n = m then b else get_n_bit w n := by
  cases b with
  | true =>
      simp only [set_n_bit16, if_pos, get_n_bit_eq_testBit, Nat.testBit_or,
        Nat.one_shiftLeft, Nat.testBit_two_pow]
      by_cases h : n = m
      · simp [h]
      · have h2 : m ≠ n := fun e => h e.symm
        simp [h, h2]
  | false =>
      by_cases h : n = m
      · subst h
        simp [set_n_bit16, get_n_bit_eq_testBit, Nat.testBit_and, Nat.testBit_xor,
          Nat.one_shiftLeft, Nat.testBit_two_pow, testBit_ffff hn]
      · have h2 : m ≠ n := fun e => h e.symm
        simp [set_n_bit16, get_n_bit_eq_testBit, Nat.testBit_and, Nat.testBit_xor,
          Nat.one_shiftLeft, Nat.testBit_two_pow, testBit_ffff hn, h, h2]

theorem registers_update_carry_flag (c : CPU) (b : Bool) :
    (c.update_carry_flag b).registers = c.registers := rfl

theorem registers_update_overflow_flag (c : CPU) (b : Bool) :
    (c.update_overflow_flag b).registers = c.registers := rfl

theorem registers_update_status_flags16 (c : CPU) (res : Nat) (cb ob : Bool) :
    (c.update_status_flags16 res cb ob).registers = c.registers := rfl

theorem registers_update_status_flags8 (c : CPU) (res : Nat) (cb ob : Bool) :
    (c.update_status_flags8 res cb ob).registers = c.registers := rfl

/-- The C flag produced by the spec-modelled word flag update. -/
theorem carry_flag_update_status_flags16 (c : CPU) (res : Nat) (cb ob : Bool) :
    (c.update_status_flags16 res cb ob).carry_flag = cb := by
  simp [CPU.update_status_flags16, CPU.carry_flag, CPU.update_carry_flag,
    CPU.update_overflow_flag, CPU.update_zero_flag, CPU.update_negative_flag,
    get_set_bit16, CARRY_FLAG_INDEX, OVERFLOW_FLAG_INDEX, ZERO_FLAG_INDEX,
    NEGATIVE_FLAG_INDEX]

/-- The C flag produced by the spec-modelled byte flag update. -/
theorem carry_flag_update_status_flags8 (c : CPU) (res : Nat) (cb ob : Bool) :
    (c.update_status_flags8 res cb ob).carry_flag = cb := by
  simp [CPU.update_status_flags8, CPU.carry_flag, CPU.update_carry_flag,
    CPU.update_overflow_flag, CPU.update_zero_flag, CPU.update_negative_flag,
    get_set_bit16, CARRY_FLAG_INDEX, OVERFLOW_FLAG_INDEX, ZERO_FLAG_INDEX,
    NEGATIVE_FLAG_INDEX]

/-- C6: the claim states that a byte read at the odd sibling `a+1` of a mapped
even address returns the high byte of the cell's word, and a byte write at
`a+1` updates the high half of the cell. In the code the map lookup is made at
the odd address itself (not at `address & 0xFFFE`), so it never finds the cell:
the read returns the backing array byte (`0`, not `0x12`), and the write leaves
the cell's word unchanged. The even-address accesses do consult the cell. -/
theorem mapped_odd_sibling_misses_cell :
    memWithCellAt0.read_byte 1 = some 0x00
    ∧ (memWithCellAt0.write_byte 1 0xAB).map (fun m => (m.mapped 0, m.bytes 1))
        = some (some 0x1234, 0xAB)
    ∧ memWithCellAt0.read_byte 0 = some 0x34
    ∧ memWithCellAt0.read_word 0 = some 0x1234 := by
  decide

/-- C7: the claim states every memory operation fails its address assertion for
addresses at or above `0x10000`. Because `MEM_SIZE = 2 << 16 = 0x20000`, the
assertion `address < MEM_SIZE - 1` accepts `0x10000`: all six operations
succeed there. -/
theorem address_0x10000_passes_validation :
    validate_address 0x10000 = true
    ∧ (Memory.empty.read_byte 0x10000).isSome = true
    ∧ (Memory.empty.write_byte 0x10000 1).isSome = true
    ∧ (Memory.empty.read_word 0x10000).isSome = true
    ∧ (Memory.empty.write_word 0x10000 1).isSome = true
    ∧ (Memory.empty.map_word 0x10000 0).isSome = true
    ∧ (Memory.empty.unmap_word 0x10000).isSome = true := by
  decide

/-- C1: the claim states TRAP traps through vector `0x001C` and EMT through
`0x0018`. In the code the constants are swapped: `do_trap` performs the trap
sequence through `0x0018` (where this memory holds `0x1111` / PSW `0x0040`)
and `do_emt` through `0x001C` (holding `0x2222` / PSW `0x0080`). The sequence
itself (push old PSW, push old PC, then load PC and PSW from the vector pair)
is as described: the old PSW `0x000F` lands at `0x01FE` and the old PC
`0x0300` at `0x01FC`. -/
theorem trap_and_emt_vectors_swapped :
    (memTrapTest.bind (fun m => cpuTrapTest.do_trap m 0x8900)).map
        (fun r => (r.1.registers 7, r.1.status,
                   r.2.read_word 0x01FE, r.2.read_word 0x01FC))
      = some (0x1111, 0x0040, some 0x000F, some 0x0300)
    ∧ (memTrapTest.bind (fun m => cpuTrapTest.do_emt m 0x8800)).map
        (fun r => (r.1.registers 7, r.1.status))
      = some (0x2222, 0x0080)
    ∧ memTrapTest.bind (fun m => m.read_word 0x0018) = some 0x1111
    ∧ memTrapTest.bind (fun m => m.read_word 0x001C) = some 0x2222 := by
  decide

/-- C2: the claim states BCS branches exactly when C = 1. The code's `do_bcs`
tests `!self.carry_flag()`: with C set (and branch word `0x8710`, offset
`+0x20`) the PC stays at `0x0400`, and with C clear it branches to `0x0420` -
the exact opposite of the claim. -/
theorem bcs_branches_when_carry_clear :
    (cpuCarrySet.do_bcs Memory.empty 0x8710).map (fun r => r.1.registers 7)
      = some 0x0400
    ∧ (cpuCarryClear.do_bcs Memory.empty 0x8710).map (fun r => r.1.registers 7)
      = some 0x0420 := by
  decide

/-- C5: the claim states that with register field 7 (the PC) only modes
2/3/6/7 take alternate forms while modes 0/1/4/5 behave as for any other
register. In the code the re-encoding `mode << 3 | 0x07` collides with the
plain mode discriminants: mode 0 with PC (operand `0o07`) becomes
`IndexDeferred` instead of `Register`, and modes 1, 4 and 5 with PC (operands
`0o17`, `0o47`, `0o57`) hit the panicking conversion arm. With any other
register (here register 6) the plain modes are returned, and the four
PC-specific modes 2/3/6/7 do map to Immediate/Absolute/Relative/
RelativeDeferred. -/
theorem pc_modes_0145_mismapped :
    adressing_from_operand 0x07 = some AddressingMode.IndexDeferred
    ∧ adressing_from_operand 0x0F = none
    ∧ adressing_from_operand 0x27 = none
    ∧ adressing_from_operand 0x2F = none
    ∧ adressing_from_operand 0x06 = some AddressingMode.Register
    ∧ adressing_from_operand 0x0E = some AddressingMode.RegisterDeferred
    ∧ adressing_from_operand 0x26 = some AddressingMode.Autodecrement
    ∧ adressing_from_operand 0x2E = some AddressingMode.AutodecrementDeferred
    ∧ adressing_from_operand 0x17 = some AddressingMode.Immediate
    ∧ adressing_from_operand 0x1F = some AddressingMode.Absolute
    ∧ adressing_from_operand 0x37 = some AddressingMode.Relative
    ∧ adressing_from_operand 0x3F = some AddressingMode.RelativeDeferred := by
  decide

/-- C4: the claim states the SUB-underflow program ends with R0 = 0xFFFF,
N = 1, Z = 0, C = 1, V = 0. Running the embedded machine on the program gives
R0 = 0xFFFF, N = 1, Z = 0 as claimed, but C = 0 (the code takes
`!has_carry` of the wrapped 32-bit difference, which is the inverse of the
borrow) and V = 1 (the sign-change rule fires on 1 - 2). -/
theorem sub_underflow_flags :
    ((loadWords Memory.empty 0x0200 subProgram).bind
        (fun m => CPU.new.run m 8)).map
      (fun r => (r.1.registers 0, r.1.negative_flag, r.1.zero_flag,
                 r.1.carry_flag, r.1.overflow_flag))
      = some (0xFFFF, true, false, false, true) := by
  decide

/-- Wrapping negation of a 16-bit value is zero exactly for zero. -/
theorem word_two_complement_eq_zero_iff {v : Nat} (h : v < 65536) :
    word_two_complement v = 0 ↔ v = 0 := by
  constructor
  · intro h0
    have e : (65536 : Nat) = 2 ^ 16 := by norm_num
    have hx : v ^^^ 0xFFFF < 65536 := by
      rw [e] at h ⊢
      exact Nat.xor_lt_two_pow h (by norm_num)
    unfold word_two_complement word_one_complement at h0
    have h1 : v ^^^ 0xFFFF = 65535 := by omega
    have h2 := congrArg (fun t => t ^^^ 0xFFFF) h1
    simpa [Nat.xor_cancel_right] using h2
  · intro h0
    subst h0
    decide

/-- Wrapping negation of a byte is zero exactly for zero. -/
theorem byte_two_complement_eq_zero_iff {b : Nat} (h : b < 256) :
    byte_two_complement b = 0 ↔ b = 0 := by
  constructor
  · intro h0
    have e : (256 : Nat) = 2 ^ 8 := by norm_num
    have hx : b ^^^ 0xFF < 256 := by
      rw [e] at h ⊢
      exact Nat.xor_lt_two_pow h (by norm_num)
    unfold byte_two_complement byte_one_complement at h0
    have h1 : b ^^^ 0xFF = 255 := by omega
    have h2 := congrArg (fun t => t ^^^ 0xFF) h1
    simpa [Nat.xor_cancel_right] using h2
  · intro h0
    subst h0
    decide

/-- A byte read at a valid unmapped address returns the backing byte. -/
theorem read_byte_unmapped (m : Memory) (a : Nat)
    (hva : validate_address a = true) (hm : m.mapped a = none) :
    m.read_byte a = some (m.bytes a) := by
  simp [Memory.read_byte, hva, hm]

/-- A byte write at a valid unmapped address only updates the backing byte. -/
theorem write_byte_unmapped (m : Memory) (a d : Nat)
    (hva : validate_address a = true) (hm : m.mapped a = none) :
    m.write_byte a d =
      some { m with bytes := fun x => if x = a then d else m.bytes x } := by
  simp [Memory.write_byte, hva, hm]

/-- The destination field of a NEG-encoded word (`0x0B00 + r`, `r ≤ 6`). -/
theorem adr_operand_neg (r : Nat) (hr : r ≤ 6) : adr_operand (0x0B00 + r) = r := by
  unfold adr_operand dst_operand
  rw [show (0x3F : Nat) = 2 ^ 6 - 1 by norm_num, Nat.and_pow_two_sub_one_eq_mod]
  omega

/-- The destination field of a NEGB-encoded word with mode 1
(`0x8B08 + r`, `r ≤ 6`). -/
theorem adr_operand_negb (r : Nat) (hr : r ≤ 6) :
    adr_operand (0x8B08 + r) = 8 + r := by
  unfold adr_operand dst_operand
  rw [show (0x3F : Nat) = 2 ^ 6 - 1 by norm_num, Nat.and_pow_two_sub_one_eq_mod]
  omega

/-- The register field of a small operand is itself. -/
theorem register_from_operand_small (r : Nat) (hr : r ≤ 6) :
    register_from_operand r = r := by
  unfold register_from_operand
  rw [show (0x07 : Nat) = 2 ^ 3 - 1 by norm_num, Nat.and_pow_two_sub_one_eq_mod]
  omega

/-- The register field of a mode-1 operand on a small register. -/
theorem register_from_operand_mode1 (r : Nat) (hr : r ≤ 6) :
    register_from_operand (8 + r) = r := by
  unfold register_from_operand
  rw [show (0x07 : Nat) = 2 ^ 3 - 1 by norm_num, Nat.and_pow_two_sub_one_eq_mod]
  omega

/-- Mode-0 operands on registers other than the PC resolve to `Register`. -/
theorem adressing_from_operand_reg (r : Nat) (hr : r ≤ 6) :
    adressing_from_operand r = some AddressingMode.Register := by
  unfold adressing_from_operand
  have hs : r >>> 3 = 0 := by
    rw [Nat.shiftRight_eq_div_pow]
    omega
  rw [register_from_operand_small r hr]
  simp [PROGRAM_COUNTER_INDEX, show r ≠ 7 by omega, hs, addressing_mode_from_byte]

/-- Mode-1 operands on registers other than the PC resolve to
`RegisterDeferred`. -/
theorem adressing_from_operand_mode1 (r : Nat) (hr : r ≤ 6) :
    adressing_from_operand (8 + r) = some AddressingMode.RegisterDeferred := by
  unfold adressing_from_operand
  have hs : (8 + r) >>> 3 = 1 := by
    rw [Nat.shiftRight_eq_div_pow]
    omega
  rw [register_from_operand_mode1 r hr]
  simp [PROGRAM_COUNTER_INDEX, show r ≠ 7 by omega, hs, addressing_mode_from_byte]

/-- C8: executing DIV with a zero source operand sets C and V and writes no
quotient or remainder: the resulting state is exactly the post-operand-fetch
state with the two flags raised, so every register (in particular Rn and
Rn+1) keeps its post-fetch value. The destination register must be even, as
the source asserts. -/
theorem div_by_zero_sets_cv_preserves_registers
    (c c1 : CPU) (m : Memory) (command : Nat)
    (heven : reg_operand command % 2 = 0)
    (hsrc : c.get_word_by_operand m (adr_operand command) = some (0, c1)) :
    c.do_div m command = some ((c1.update_carry_flag true).update_overflow_flag true, m)
    ∧ (∀ r, ((c1.update_carry_flag true).update_overflow_flag true).registers r
        = c1.registers r)
    ∧ ((c1.update_carry_flag true).update_overflow_flag true).carry_flag = true
    ∧ ((c1.update_carry_flag true).update_overflow_flag true).overflow_flag = true := by
  refine ⟨?_, ?_, ?_, ?_⟩
  · simp [CPU.do_div, assert_even_reg, heven, hsrc]
  · intro r
    rfl
  · simp [CPU.carry_flag, CPU.update_carry_flag, CPU.update_overflow_flag,
      get_set_bit16, CARRY_FLAG_INDEX, OVERFLOW_FLAG_INDEX]
  · simp [CPU.overflow_flag, CPU.update_carry_flag, CPU.update_overflow_flag,
      get_set_bit16, CARRY_FLAG_INDEX, OVERFLOW_FLAG_INDEX]

/-- Witness for C8: `DIV R0, R2` (`0x7202`) with `R2 = 0`, `R0 = 5`,
`R1 = 7`: the state keeps all registers and gains C and V. -/
theorem div_by_zero_witness :
    cpuDivTest.do_div Memory.empty 0x7202
      = some ((cpuDivTest.update_carry_flag true).update_overflow_flag true,
              Memory.empty)
    ∧ ((cpuDivTest.update_carry_flag true).update_overflow_flag true).registers 0 = 5
    ∧ ((cpuDivTest.update_carry_flag true).update_overflow_flag true).registers 1 = 7
    ∧ ((cpuDivTest.update_carry_flag true).update_overflow_flag true).carry_flag = true
    ∧ ((cpuDivTest.update_carry_flag true).update_overflow_flag true).overflow_flag
        = true := by
  have h := div_by_zero_sets_cv_preserves_registers cpuDivTest cpuDivTest
    Memory.empty 0x7202 (by decide) rfl
  exact ⟨h.1, by rw [h.2.1 0]; decide, by rw [h.2.1 1]; decide, h.2.2.1, h.2.2.2⟩

/-- C10: NEG stores the (wrapping) two's complement of the operand value and
sets C exactly when the stored result is nonzero, which happens exactly when
the operand was nonzero; NEGB does the same at byte width. The first part
runs NEG on a register operand (`0x0B00 + r`), the second runs NEGB on a
register-deferred operand (`0x8B08 + r`) addressing an unmapped byte. -/
theorem neg_negb_two_complement_carry :
    (∀ (c : CPU) (m : Memory) (r v : Nat), r ≤ 6 → v < 65536 →
      c.registers r = v →
      ∃ c2, c.do_neg m (0x0B00 + r) = some (c2, m)
        ∧ c2.registers r = word_two_complement v
        ∧ c2.carry_flag = !(word_two_complement v == 0)
        ∧ (word_two_complement v = 0 ↔ v = 0))
    ∧ (∀ (c : CPU) (m : Memory) (r a : Nat), r ≤ 6 →
      c.registers r = a → validate_address a = true → m.mapped a = none →
      m.bytes a < 256 →
      ∃ c2 m2, c.do_negb m (0x8B08 + r) = some (c2, m2)
        ∧ m2.bytes a = byte_two_complement (m.bytes a)
        ∧ c2.carry_flag = !(byte_two_complement (m.bytes a) == 0)
        ∧ (byte_two_complement (m.bytes a) = 0 ↔ m.bytes a = 0)) := by
  constructor
  · intro c m r v hr hv hreg
    have e1 := adr_operand_neg r hr
    have e2 := register_from_operand_small r hr
    have e3 := adressing_from_operand_reg r hr
    have hget : c.get_word_by_operand m r = some (c.registers r, c) := by
      simp [CPU.get_word_by_operand, e2, e3, CPU.get_word, CPU.get_word_from_reg]
    have hput : ∀ (c1 : CPU) (w : Nat),
        c1.put_word_by_operand m r w = some (c1.set_word_reg r w, m) := by
      intro c1 w
      simp [CPU.put_word_by_operand, e2, e3, CPU.put_word]
    refine ⟨(c.set_word_reg r (word_two_complement v)).update_status_flags16
      (word_two_complement v) (!(word_two_complement v == 0))
      (!has_signed_overflow16 v (word_two_complement v)), ?_, ?_, ?_,
      word_two_complement_eq_zero_iff hv⟩
    · simp [CPU.do_neg, e1, hget, hput, hreg]
    · simp [registers_update_status_flags16, CPU.set_word_reg]
    · exact carry_flag_update_status_flags16 _ _ _ _
  · intro c m r a hr hreg hva hm hb
    have e1 := adr_operand_negb r hr
    have e2 := register_from_operand_mode1 r hr
    have e3 := adressing_from_operand_mode1 r hr
    have hget : c.get_byte_by_operand m (8 + r) = some (m.bytes a, c) := by
      simp [CPU.get_byte_by_operand, e2, e3, CPU.get_byte, CPU.get_address,
        CPU.get_register_deferred_address, CPU.get_word_from_reg, hreg,
        read_byte_unmapped m a hva hm]
    have hput : ∀ (d : Nat),
        c.put_byte_by_operand m (8 + r) d =
          some (c, { m with bytes := fun x => if x = a then d else m.bytes x }) := by
      intro d
      simp [CPU.put_byte_by_operand, e2, e3, CPU.put_byte, CPU.get_address,
        CPU.get_register_deferred_address, CPU.get_word_from_reg, hreg,
        write_byte_unmapped m a d hva hm]
    refine ⟨c.update_status_flags8 (byte_two_complement (m.bytes a))
      (!(byte_two_complement (m.bytes a) == 0))
      (!has_signed_overflow8 (m.bytes a) (byte_two_complement (m.bytes a))),
      { m with bytes := fun x => if x = a then byte_two_complement (m.bytes a)
          else m.bytes x }, ?_, ?_, ?_, byte_two_complement_eq_zero_iff hb⟩
    · simp [CPU.do_negb, e1, hget, hput]
    · simp
    · exact carry_flag_update_status_flags8 _ _ _ _

/-- Witness for C10: NEG on `R1 = 3` yields `0xFFFD` with C set, and NEGB on
an unmapped zero byte yields `0` with C clear. -/
theorem neg_negb_witness :
    (∃ c2, cpuNegTest.do_neg Memory.empty (0x0B00 + 1) = some (c2, Memory.empty)
      ∧ c2.registers 1 = 0xFFFD
      ∧ c2.carry_flag = true)
    ∧ (∃ c2 m2, cpuNegTest.do_negb Memory.empty (0x8B08 + 2) = some (c2, m2)
      ∧ m2.bytes 0 = 0
      ∧ c2.carry_flag = false) := by
  obtain ⟨hw, hb⟩ := neg_negb_two_complement_carry
  constructor
  · obtain ⟨c2, h1, h2, h3, -⟩ := hw cpuNegTest Memory.empty 1 3
      (by decide) (by decide) rfl
    exact ⟨c2, h1, by rw [h2]; decide, by rw [h3]; decide⟩
  · obtain ⟨c2, m2, h1, h2, h3, -⟩ := hb cpuNegTest Memory.empty 2 0
      (by decide) rfl (by decide) rfl (by decide)
    exact ⟨c2, m2, h1, by rw [h2]; decide, by rw [h3]; decide⟩

/-- C3: interrupt polling. With current priority `p ≤ 7`: polling at `p = 7`
returns nothing; when every level above `p` is empty the bus is unchanged and
nothing is returned; when some level `l > p` is non-empty and every level
above `l` is empty, the head of level `l` (the oldest entry) is returned and
removed, other levels untouched; and posting appends at the tail of the
level's queue, so delivery within a level is FIFO. -/
theorem poll_delivers_highest_pending_fifo (bus : InterruptionBus) (p : Nat)
    (hp : p ≤ 7) :
    (p = 7 → bus.next_interruption_if_any p = some (none, bus))
    ∧ ((∀ l, p < l → l ≤ 7 → levelQueue bus l = []) →
        bus.next_interruption_if_any p = some (none, bus))
    ∧ (∀ l v rest, p < l → l ≤ 7 → levelQueue bus l = v :: rest →
        (∀ l2, l < l2 → l2 ≤ 7 → levelQueue bus l2 = []) →
        ∃ bus2, bus.next_interruption_if_any p = some (some v, bus2)
          ∧ levelQueue bus2 l = rest
          ∧ ∀ l2, l2 ≤ 7 → l2 ≠ l → levelQueue bus2 l2 = levelQueue bus l2)
    ∧ (∀ v l, 4 ≤ l → l ≤ 7 →
        ∃ bus2, bus.interrupt v l = some bus2
          ∧ levelQueue bus2 l = levelQueue bus l ++ [v]
          ∧ ∀ l2, l2 ≤ 7 → l2 ≠ l → levelQueue bus2 l2 = levelQueue bus l2) := by
  refine ⟨?_, ?_, ?_, ?_⟩
  · intro h
    subst h
    simp [InterruptionBus.next_interruption_if_any]
  · intro h
    interval_cases p
    · have h7 : bus.br7 = [] := h 7 (by omega) (by omega)
      have h6 : bus.br6 = [] := h 6 (by omega) (by omega)
      have h5 : bus.br5 = [] := h 5 (by omega) (by omega)
      have h4 : bus.br4 = [] := h 4 (by omega) (by omega)
      simp [InterruptionBus.next_interruption_if_any, h7, h6, h5, h4]
    · have h7 : bus.br7 = [] := h 7 (by omega) (by omega)
      have h6 : bus.br6 = [] := h 6 (by omega) (by omega)
      have h5 : bus.br5 = [] := h 5 (by omega) (by omega)
      have h4 : bus.br4 = [] := h 4 (by omega) (by omega)
      simp [InterruptionBus.next_interruption_if_any, h7, h6, h5, h4]
    · have h7 : bus.br7 = [] := h 7 (by omega) (by omega)
      have h6 : bus.br6 = [] := h 6 (by omega) (by omega)
      have h5 : bus.br5 = [] := h 5 (by omega) (by omega)
      have h4 : bus.br4 = [] := h 4 (by omega) (by omega)
      simp [InterruptionBus.next_interruption_if_any, h7, h6, h5, h4]
    · have h7 : bus.br7 = [] := h 7 (by omega) (by omega)
      have h6 : bus.br6 = [] := h 6 (by omega) (by omega)
      have h5 : bus.br5 = [] := h 5 (by omega) (by omega)
      have h4 : bus.br4 = [] := h 4 (by omega) (by omega)
      simp [InterruptionBus.next_interruption_if_any, h7, h6, h5, h4]
    · have h7 : bus.br7 = [] := h 7 (by omega) (by omega)
      have h6 : bus.br6 = [] := h 6 (by omega) (by omega)
      have h5 : bus.br5 = [] := h 5 (by omega) (by omega)
      simp [InterruptionBus.next_interruption_if_any, h7, h6, h5]
    · have h7 : bus.br7 = [] := h 7 (by omega) (by omega)
      have h6 : bus.br6 = [] := h 6 (by omega) (by omega)
      simp [InterruptionBus.next_interruption_if_any, h7, h6]
    · have h7 : bus.br7 = [] := h 7 (by omega) (by omega)
      simp [InterruptionBus.next_interruption_if_any, h7]
    · simp [InterruptionBus.next_interruption_if_any]
  · intro l v rest hpl hl7 hq hhigher
    interval_cases l
    · simp [levelQueue] at hq
    · simp [levelQueue] at hq
    · simp [levelQueue] at hq
    · simp [levelQueue] at hq
    · have h7 : bus.br7 = [] := hhigher 7 (by omega) (by omega)
      have h6 : bus.br6 = [] := hhigher 6 (by omega) (by omega)
      have h5 : bus.br5 = [] := hhigher 5 (by omega) (by omega)
      have hq4 : bus.br4 = v :: rest := hq
      refine ⟨{ bus with br4 := rest }, ?_, rfl, ?_⟩
      · simp [InterruptionBus.next_interruption_if_any, h7, h6, h5, hq4,
          show p ≤ 7 from hp, show p ≠ 7 by omega, show p ≠ 6 by omega,
          show p ≠ 5 by omega, show p ≠ 4 by omega]
      · intro l2 hl2 hne
        interval_cases l2 <;> simp_all [levelQueue]
    · have h7 : bus.br7 = [] := hhigher 7 (by omega) (by omega)
      have h6 : bus.br6 = [] := hhigher 6 (by omega) (by omega)
      have hq5 : bus.br5 = v :: rest := hq
      refine ⟨{ bus with br5 := rest }, ?_, rfl, ?_⟩
      · simp [InterruptionBus.next_interruption_if_any, h7, h6, hq5,
          show p ≤ 7 from hp, show p ≠ 7 by omega, show p ≠ 6 by omega,
          show p ≠ 5 by omega]
      · intro l2 hl2 hne
        interval_cases l2 <;> simp_all [levelQueue]
    · have h7 : bus.br7 = [] := hhigher 7 (by omega) (by omega)
      have hq6 : bus.br6 = v :: rest := hq
      refine ⟨{ bus with br6 := rest }, ?_, rfl, ?_⟩
      · simp [InterruptionBus.next_interruption_if_any, h7, hq6,
          show p ≤ 7 from hp, show p ≠ 7 by omega, show p ≠ 6 by omega]
      · intro l2 hl2 hne
        interval_cases l2 <;> simp_all [levelQueue]
    · have hq7 : bus.br7 = v :: rest := hq
      refine ⟨{ bus with br7 := rest }, ?_, rfl, ?_⟩
      · simp [InterruptionBus.next_interruption_if_any, hq7,
          show p ≤ 7 from hp, show p ≠ 7 by omega]
      · intro l2 hl2 hne
        interval_cases l2 <;> simp_all [levelQueue]
  · intro v l h4 h7
    interval_cases l
    · refine ⟨{ bus with br4 := bus.br4 ++ [v] }, ?_, rfl, ?_⟩
      · simp [InterruptionBus.interrupt]
      · intro l2 hl2 hne
        interval_cases l2 <;> simp_all [levelQueue]
    · refine ⟨{ bus with br5 := bus.br5 ++ [v] }, ?_, rfl, ?_⟩
      · simp [InterruptionBus.interrupt]
      · intro l2 hl2 hne
        interval_cases l2 <;> simp_all [levelQueue]
    · refine ⟨{ bus with br6 := bus.br6 ++ [v] }, ?_, rfl, ?_⟩
      · simp [InterruptionBus.interrupt]
      · intro l2 hl2 hne
        interval_cases l2 <;> simp_all [levelQueue]
    · refine ⟨{ bus with br7 := bus.br7 ++ [v] }, ?_, rfl, ?_⟩
      · simp [InterruptionBus.interrupt]
      · intro l2 hl2 hne
        interval_cases l2 <;> simp_all [levelQueue]

/-- Witness for C3: on a bus with one vector (`0x0030`) pending at level 4 and
current priority 0, polling delivers it and leaves the bus empty. -/
theorem poll_witness :
    ∃ bus2, (InterruptionBus.mk [0x0030] [] [] []).next_interruption_if_any 0
        = some (some 0x0030, bus2)
      ∧ levelQueue bus2 4 = []
      ∧ ∀ l2, l2 ≤ 7 → l2 ≠ 4 →
          levelQueue bus2 l2 = levelQueue (InterruptionBus.mk [0x0030] [] [] []) l2 := by
  have h := poll_delivers_highest_pending_fifo
    (InterruptionBus.mk [0x0030] [] [] []) 0 (by omega)
  exact h.2.2.1 4 0x0030 [] (by omega) (by omega) rfl
    (by intro l2 h1 h2; interval_cases l2 <;> rfl)

/-- C9 counterexample: on a receiver tick with no pending byte in RBUF and the
keyboard queue holding `0x41`, the byte is drained into the low byte of RBUF,
but the RDY bit of RCSR is 0 at the end of the tick (the claim says it is left
set to 1): `try_receive` runs `set_recived(false)` on the drain path and never
raises RDY in the same tick. Here RCSR even starts with RDY = 1 (word
`0x00C0`) and ends with it cleared (word `0x0040`). -/
theorem drain_tick_clears_rdy :
    (ttyDrainTest.try_receive).1.receiver_buffer.word = 0x0041
    ∧ (ttyDrainTest.try_receive).1.receiver_buffer.has_new_data = true
    ∧ (ttyDrainTest.try_receive).1.receiver_queue = []
    ∧ (ttyDrainTest.try_receive).1.receiver_status.word = 0x0040
    ∧ get_n_bit (ttyDrainTest.try_receive).1.receiver_status.word RDY_STATUS_BIT
        = false := by
  decide

/-- C9 amended: on a receiver tick with no undelivered byte pending in RBUF
and a non-empty keyboard queue, one byte is moved into the low byte of RBUF
(and RBUF is marked pending), but the RDY bit of RCSR is CLEARED (0) at the
end of that tick; RDY is raised only on a later tick, when the pending byte is
announced. No interrupt is raised on the drain tick. -/
theorem drain_tick_moves_byte_rdy_clear (t : Dl11Receiver) (b : Nat)
    (rest : List Nat)
    (hpend : t.receiver_buffer.has_new_data = false)
    (hq : t.receiver_queue = b :: rest) :
    ∃ t2, t.try_receive = (t2, [])
      ∧ t2.receiver_buffer.word = make_word b (word_high t.receiver_buffer.word)
      ∧ t2.receiver_buffer.has_new_data = true
      ∧ t2.receiver_queue = rest
      ∧ t2.receiver_status.word
          = set_n_bit16 t.receiver_status.word RDY_STATUS_BIT false
      ∧ get_n_bit t2.receiver_status.word RDY_STATUS_BIT = false := by
  refine ⟨Dl11Receiver.mk
      (TtyCell.mk true (set_n_bit16 t.receiver_status.word RDY_STATUS_BIT false))
      (TtyCell.mk true (make_word b (word_high t.receiver_buffer.word)))
      rest, ?_, rfl, rfl, rfl, rfl, ?_⟩
  · simp [Dl11Receiver.try_receive, Dl11Receiver.has_received_data, hpend,
      Dl11Receiver.set_recived, TtyCell.read_word, TtyCell.write_word,
      TtyCell.write_byte, cell_write_byte, hq]
  · rw [get_set_bit16 _ _ _ _ (show RDY_STATUS_BIT < 16 by norm_num [RDY_STATUS_BIT])]
    simp

/-- Witness for C9: the amended drain behavior on the concrete receiver state
`ttyDrainTest`. -/
theorem drain_tick_witness :
    ∃ t2, ttyDrainTest.try_receive = (t2, [])
      ∧ t2.receiver_buffer.word
          = make_word 0x41 (word_high ttyDrainTest.receiver_buffer.word)
      ∧ t2.receiver_buffer.has_new_data = true
      ∧ t2.receiver_queue = []
      ∧ t2.receiver_status.word
          = set_n_bit16 ttyDrainTest.receiver_status.word RDY_STATUS_BIT false
      ∧ get_n_bit t2.receiver_status.word RDY_STATUS_BIT = false :=
  drain_tick_moves_byte_rdy_clear ttyDrainTest 0x41 [] rfl rfl
